import Mathlib

/-!
Verification of the astrophysical conversion pipeline in
`Radio_interferometry/p1.ipynb` (repository Jayshil/Data_analysis).

The notebook is a linear sequence of closed-form unit conversions:
star-formation rate, infrared luminosity, CO line luminosity, observed
frequencies, lensing, flux density, molecular gas mass.  Every cell is
embedded here as a real-valued function, generalized over the scalar
constants that the cells hard-code, with the cell's own variable names.
-/

namespace P1

noncomputable section

/-- Cell 2 of p1.ipynb: `lfir = sfr/kappa` (erg/s), the Kennicutt (1998)
relation solved for the infrared luminosity. -/
def lfir (sfr kappa : ℝ) : ℝ := sfr / kappa

/-- Cell 3: `lsun = con.L_sun.value * 1e7`, the IAU nominal solar
luminosity 3.828e26 W taken from `astropy.constants`, converted to erg/s. -/
def lsun : ℝ := 3.828e26 * 1e7

/-- Cell 3: `logco = (np.log10(lfir_sun) - 0.53)/1.13`, the Carilli and
Walter (2013) relation solved for `log L'_CO`; `np.log10` is the base-10
logarithm, embedded as `Real.logb 10`. -/
def logco (lfir_sun : ℝ) : ℝ := (Real.logb 10 lfir_sun - 0.53) / 1.13

/-- Cell 3: `lco_diff_units = 10**logco`, applied to `lfir_sun = lfir/lsun`
(the infrared luminosity in solar units). -/
def lco_diff_units (lf ls : ℝ) : ℝ := (10 : ℝ) ^ logco (lf / ls)

/-- Cell 4: the fixed table of CO line names (the string `C043` is the
notebook's own spelling). -/
def lines : List String := ["CO10", "CO21", "CO32", "C043", "CO54", "CO65", "CO75"]

/-- Cell 4: `rest_frame`, the fixed table of rest-frame frequencies in GHz. -/
def rest_frame : List ℝ :=
  [115.271204, 230.537990, 345.795989, 461.040770, 576.267904, 691.473090, 806.651806]

/-- Cell 4: `obs_freq = rest_frame/(1+redshift)`, numpy broadcasting, i.e.
elementwise division of the whole table. -/
def obs_freq (redshift : ℝ) : List ℝ := rest_frame.map (fun nu => nu / (1 + redshift))

/-- Cell 5, generalized over the hard-coded ratio 0.6:
`lco_32 = lco_diff_units * 0.6`. -/
def lco_32 (lco ratio : ℝ) : ℝ := lco * ratio

/-- Cell 6, generalized over the hard-coded magnification 4.3:
`lco_32_lens = 4.3 * lco_32`. -/
def lco_32_lens (mag l : ℝ) : ℝ := mag * l

/-- Cell 7: `flux_s = (lco_32_lens*freq1*freq1*((1+redshift)**3)) / (dl*dl*3.25e7)`,
the Solomon et al. (1997) relation solved for the integrated flux density. -/
def flux_s (l f z dl : ℝ) : ℝ := (l * f * f * (1 + z) ^ (3 : ℕ)) / (dl * dl * 3.25e7)

/-- Cell 8, generalized over the hard-coded velocity dispersion 200:
`flux_density = flux_s / 200`. -/
def flux_density (s v : ℝ) : ℝ := s / v

/-- Cell 9, generalized over the hard-coded factor `alpha_CO = 4`:
`mass_h2 = lco_diff_units * 4`. -/
def mass_h2 (lco alpha : ℝ) : ℝ := lco * alpha

/-- All scalar inputs of a pipeline run.  The notebook hard-codes
`sfr = 30`, `kappa = 4.5e-44`, `lsun`, `redshift = 1.036`, `ratio = 0.6`,
`mag = 4.3`, `dl` from the cosmology, `vdisp = 200`, `alpha = 4`. -/
structure Params where
  sfr : ℝ
  kappa : ℝ
  lsun : ℝ
  redshift : ℝ
  ratio : ℝ
  mag : ℝ
  dl : ℝ
  vdisp : ℝ
  alpha : ℝ

/-- All derived quantities of a pipeline run, one field per notebook
variable. -/
structure Derived where
  lfir : ℝ
  lco10 : ℝ
  obs : List ℝ
  freq1 : ℝ
  lco32 : ℝ
  lco32Lens : ℝ
  fluxS : ℝ
  fluxDens : ℝ
  massH2 : ℝ

/-- The whole notebook, cells 2 through 9, as one function of the inputs.
`freq1 = obs_freq[2]` is the observed CO(3-2) frequency (cell 7), and
`mass_h2` is computed from `lco_diff_units` (cell 9), not from the lensed
CO(3-2) luminosity. -/
def runPipeline (p : Params) : Derived :=
  let lf := lfir p.sfr p.kappa
  let lco := lco_diff_units lf p.lsun
  let ofs := obs_freq p.redshift
  let f1 := ofs.getD 2 0
  let l32 := lco_32 lco p.ratio
  let llens := lco_32_lens p.mag l32
  let fs := flux_s llens f1 p.redshift p.dl
  { lfir := lf, lco10 := lco, obs := ofs, freq1 := f1, lco32 := l32,
    lco32Lens := llens, fluxS := fs, fluxDens := flux_density fs p.vdisp,
    massH2 := mass_h2 lco p.alpha }

/-- Outcomes of the numpy floating-point operations that appear in the
notebook: a finite real, a signed infinity, or NaN.  numpy's `log10` and
true division emit the non-finite outcomes silently (at most a
RuntimeWarning); they never raise an exception. -/
inductive PyFloat where
  | fin (x : ℝ)
  | inf
  | ninf
  | nan

/-- Cell 3 under numpy float semantics:
`logco = (np.log10(u) - 0.53)/1.13` for an arbitrary real argument `u`.
`np.log10` returns the base-10 logarithm for positive input, -inf at zero
and NaN for negative input; the subsequent affine map with positive scale
keeps -inf at -inf and NaN at NaN. -/
def logco_py (u : ℝ) : PyFloat :=
  if 0 < u then .fin ((Real.logb 10 u - 0.53) / 1.13)
  else if u = 0 then .ninf
  else .nan

/-- `10 ** t` under numpy float semantics: `10^(-inf) = 0.0`,
`10^inf = inf`, `10^nan = nan`. -/
def pow10_py : PyFloat → PyFloat
  | .fin t => .fin ((10 : ℝ) ^ t)
  | .ninf => .fin 0
  | .inf => .inf
  | .nan => .nan

/-- Cell 3 under numpy float semantics: `lco_diff_units = 10**logco(u)`
where `u = lfir/lsun` is the luminosity ratio fed to the logarithm. -/
def lco_diff_units_py (u : ℝ) : PyFloat := pow10_py (logco_py u)

/-- numpy float division `a/b`: finite quotient for nonzero divisor,
otherwise a silent signed infinity (or NaN for 0/0). -/
def np_div (a b : ℝ) : PyFloat :=
  if b ≠ 0 then .fin (a / b)
  else if 0 < a then .inf
  else if a < 0 then .ninf
  else .nan

/-- Cell 7 under numpy float semantics: the division of the flux-density
formula. -/
def flux_s_py (l f z dl : ℝ) : PyFloat :=
  np_div (l * f * f * (1 + z) ^ (3 : ℕ)) (dl * dl * 3.25e7)

/-- Cell 8 under numpy float semantics: `flux_s / v`. -/
def flux_density_py (s v : ℝ) : PyFloat := np_div s v

end

/-! ## Claim theorems -/

/-- Claim C1: for every star formation rate `sfr > 0` and conversion factor
`kappa > 0`, the infrared luminosity of cell 2 is exactly `sfr / kappa`. -/
theorem C1_infrared_luminosity (sfr kappa : ℝ) (hs : 0 < sfr) (hk : 0 < kappa) :
    lfir sfr kappa = sfr / kappa := rfl

/-- Witness for C1 at the notebook's own inputs. -/
theorem C1_infrared_luminosity_witness :
    (0 : ℝ) < 30 ∧ (0 : ℝ) < 4.5e-44 ∧ lfir 30 4.5e-44 = 30 / 4.5e-44 :=
  ⟨by norm_num, by norm_num,
    C1_infrared_luminosity 30 4.5e-44 (by norm_num) (by norm_num)⟩

/-- Claim C2: for every `L_IR > 0` and `L_sun > 0`, cell 3 converts `L_IR` to
solar units, applies the Carilli and Walter relation in log space, and
exponentiates: the result is `10^((log10(L_IR/L_sun) - 0.53)/1.13)`. -/
theorem C2_co_luminosity_10 (lf ls : ℝ) (h1 : 0 < lf) (h2 : 0 < ls) :
    lco_diff_units lf ls = (10 : ℝ) ^ ((Real.logb 10 (lf / ls) - 0.53) / 1.13) := rfl

/-- Witness for C2 at the notebook's own values. -/
theorem C2_co_luminosity_10_witness :
    (0 : ℝ) < 6.67e44 ∧ (0 : ℝ) < 3.828e33 ∧
      lco_diff_units 6.67e44 3.828e33 =
        (10 : ℝ) ^ ((Real.logb 10 ((6.67e44 : ℝ) / 3.828e33) - 0.53) / 1.13) :=
  ⟨by norm_num, by norm_num,
    C2_co_luminosity_10 6.67e44 3.828e33 (by norm_num) (by norm_num)⟩

/-- Claim C3 counterexample: cell 3 applied to the non-positive luminosity ratio
`-1` yields a silently propagated NaN, not a raised DomainError; the claim
that every stage with a positivity precondition raises `DomainError` and
never yields a silent NaN is false on the code. -/
theorem C3_counterexample : lco_diff_units_py (-1) = PyFloat.nan := by
  norm_num [lco_diff_units_py, logco_py, pow10_py]

/-- Claim C3 amended: no stage checks its positivity precondition.  The
logarithm of cell 3 silently yields NaN for negative input and -inf (hence
0.0 after exponentiation) at zero; the divisions of cells 7 and 8 silently
yield an infinity for a positive numerator over a zero denominator.  No
stage raises any error. -/
theorem C3_no_domain_checks :
    (∀ u : ℝ, u < 0 → lco_diff_units_py u = PyFloat.nan) ∧
    lco_diff_units_py 0 = PyFloat.fin 0 ∧
    (∀ l f z : ℝ, 0 < l * f * f * (1 + z) ^ (3 : ℕ) →
      flux_s_py l f z 0 = PyFloat.inf) ∧
    (∀ s : ℝ, 0 < s → flux_density_py s 0 = PyFloat.inf) := by
  refine ⟨fun u hu => ?_, ?_, fun l f z h => ?_, fun s hs => ?_⟩
  · simp only [lco_diff_units_py, logco_py]
    rw [if_neg (by linarith), if_neg (by linarith)]
    rfl
  · norm_num [lco_diff_units_py, logco_py, pow10_py]
  · simp only [flux_s_py, np_div]
    rw [if_neg (by norm_num), if_pos (by simpa using h)]
  · simp only [flux_density_py, np_div]
    rw [if_neg (by norm_num), if_pos hs]

/-- Witness for the amended C3: concrete evaluations of the unchecked
stages. -/
theorem C3_no_domain_checks_witness :
    lco_diff_units_py (-2) = PyFloat.nan ∧ flux_density_py 1 0 = PyFloat.inf :=
  ⟨C3_no_domain_checks.1 (-2) (by norm_num),
    C3_no_domain_checks.2.2.2 1 (by norm_num)⟩

/-- Claim C4: for every lensed luminosity, observed frequency, redshift and
positive distance, cell 7 returns
`L_lensed * freq_obs^2 * (1+z)^3 / (3.25e7 * d^2)`. -/
theorem C4_flux_density_integrated (l f z d : ℝ) (hd : 0 < d) :
    flux_s l f z d = l * f ^ (2 : ℕ) * (1 + z) ^ (3 : ℕ) / (3.25e7 * d ^ (2 : ℕ)) := by
  unfold flux_s
  ring

/-- Witness for C4 at the notebook's shape of inputs. -/
theorem C4_flux_density_integrated_witness :
    (0 : ℝ) < 7083 ∧
      flux_s 7.77e9 169.84 1.036 7083 =
        7.77e9 * (169.84 : ℝ) ^ (2 : ℕ) * (1 + 1.036) ^ (3 : ℕ) /
          (3.25e7 * (7083 : ℝ) ^ (2 : ℕ)) :=
  ⟨by norm_num, C4_flux_density_integrated 7.77e9 169.84 1.036 7083 (by norm_num)⟩

/-- Claim C5: cell 9 returns `L_CO10 * alpha_CO`, and in the assembled pipeline
the luminosity it consumes is the unlensed CO(1-0) luminosity
`lco_diff_units`, not the line-ratio-converted or lensing-magnified
CO(3-2) luminosity. -/
theorem C5_h2_mass :
    (∀ lco alpha : ℝ, mass_h2 lco alpha = lco * alpha) ∧
    ∀ p : Params, (runPipeline p).massH2 = (runPipeline p).lco10 * p.alpha :=
  ⟨fun _ _ => rfl, fun _ => rfl⟩

/-- Claim C6: for every redshift with `1+z > 0`, cell 4 computes
`rest / (1+z)` for every entry of the fixed rest-frequency table (numpy
broadcasting), not for a single hard-coded line. -/
theorem C6_select_observing_line (z : ℝ) (hz : 0 < 1 + z) :
    (obs_freq z).length = rest_frame.length ∧
    ∀ i : ℕ, (obs_freq z)[i]? = (rest_frame[i]?).map (fun nu => nu / (1 + z)) := by
  constructor
  · simp [obs_freq]
  · intro i
    simp [obs_freq]

/-- Witness for C6 at the notebook's redshift. -/
theorem C6_select_observing_line_witness :
    (0 : ℝ) < 1 + 1.036 ∧
      ((obs_freq 1.036).length = rest_frame.length ∧
        ∀ i : ℕ, (obs_freq 1.036)[i]? =
          (rest_frame[i]?).map (fun nu => nu / (1 + 1.036))) :=
  ⟨by norm_num, C6_select_observing_line 1.036 (by norm_num)⟩

/-- Claim C8: the pipeline is a pure function of its declared inputs; two runs
on identical inputs yield identical derived quantities. -/
theorem C8_deterministic (p q : Params) (h : p = q) :
    runPipeline p = runPipeline q := by rw [h]

/-- Witness for C8: two runs at the notebook's reference inputs. -/
theorem C8_deterministic_witness :
    runPipeline ⟨30, 4.5e-44, lsun, 1.036, 0.6, 4.3, 7094, 200, 4⟩ =
      runPipeline ⟨30, 4.5e-44, lsun, 1.036, 0.6, 4.3, 7094, 200, 4⟩ :=
  C8_deterministic _ _ rfl

/-- Claim C10: the H2 mass of cell 9 depends only on the star formation rate,
`kappa`, `L_sun` (and the fixed factor `alpha`); two runs that agree on
those but differ in magnification, line ratio, redshift, luminosity
distance or velocity dispersion produce the same `mass_h2`. -/
theorem C10_mass_unaffected (p q : Params) (hs : p.sfr = q.sfr)
    (hk : p.kappa = q.kappa) (hl : p.lsun = q.lsun) (ha : p.alpha = q.alpha) :
    (runPipeline p).massH2 = (runPipeline q).massH2 := by
  simp only [runPipeline, mass_h2, lco_diff_units, lfir, hs, hk, hl, ha]

/-- Witness for C10: two runs agreeing on `sfr`, `kappa`, `lsun`, `alpha`
but differing in redshift, ratio, magnification, distance and velocity
dispersion. -/
theorem C10_mass_unaffected_witness :
    (runPipeline ⟨30, 4.5e-44, lsun, 1.036, 0.6, 4.3, 7094, 200, 4⟩).massH2 =
      (runPipeline ⟨30, 4.5e-44, lsun, 2.5, 0.9, 10, 20000, 350, 4⟩).massH2 :=
  C10_mass_unaffected _ _ rfl rfl rfl rfl

/-- Claim C7: for fixed positive `L_sun` and `alpha_CO`, the composition of
cell 3 and cell 9, `mass_h2 (lco_diff_units lf ls) alpha`, is strictly
increasing in the infrared luminosity on the positive reals. -/
theorem C7_composition_monotone (ls alpha : ℝ) (hls : 0 < ls) (halpha : 0 < alpha) :
    StrictMonoOn (fun lf => mass_h2 (lco_diff_units lf ls) alpha) (Set.Ioi 0) := by
  intro a ha b hb hab
  simp only [Set.mem_Ioi] at ha hb
  simp only [mass_h2, lco_diff_units, logco]
  refine mul_lt_mul_of_pos_right ?_ halpha
  rw [Real.rpow_lt_rpow_left_iff (by norm_num : (1 : ℝ) < 10)]
  have hdiv : a / ls < b / ls := by gcongr
  have hlog : Real.logb 10 (a / ls) < Real.logb 10 (b / ls) :=
    Real.logb_lt_logb (by norm_num) (div_pos ha hls) hdiv
  rw [div_lt_div_right (by norm_num : (0 : ℝ) < 1.13)]
  linarith

/-- Witness for C7 at the notebook's solar luminosity and `alpha_CO = 4`. -/
theorem C7_composition_monotone_witness :
    (0 : ℝ) < 3.828e33 ∧ (0 : ℝ) < 4 ∧
      StrictMonoOn (fun lf => mass_h2 (lco_diff_units lf 3.828e33) 4) (Set.Ioi 0) :=
  ⟨by norm_num, by norm_num,
    C7_composition_monotone 3.828e33 4 (by norm_num) (by norm_num)⟩

/-! ## Certified numeric bounds for the reference scenario (claim C9)

The CO(1-0) luminosity of cell 3 is `10^((log10(u) - 0.53)/1.13)` with
`u = (30/4.5e-44)/3.828e33 = (5000/2871)*10^11`, a transcendental value.
The lemmas below pin it between explicit rationals, starting from the
Mathlib decimal bounds on `log 2` and `exp 1` and the Taylor remainder
bounds on `log (1-x)` and `exp x`. -/

/-- Bounds 0.2231435513 ≤ log (5/4) ≤ 0.2231435514, from the Taylor
series of `log (1-x)` at `x = -1/4` with 20 terms. -/
lemma log_five_fourths_bounds :
    (0.2231435513 : ℝ) ≤ Real.log (5 / 4) ∧ Real.log (5 / 4) ≤ 0.2231435514 := by
  have hx : |(-(1 / 4) : ℝ)| = 1 / 4 := by
    rw [abs_neg, abs_of_pos (by norm_num : (0 : ℝ) < 1 / 4)]
  have h : |(-(1 / 4) : ℝ)| < 1 := by rw [hx]; norm_num
  have z := Real.abs_log_sub_add_sum_range_le h 20
  rw [hx] at z
  have e1 : (1 : ℝ) - -(1 / 4) = 5 / 4 := by norm_num
  rw [e1, abs_le] at z
  obtain ⟨z1, z2⟩ := z
  norm_num [Finset.sum_range_succ] at z1 z2
  constructor <;> linarith

/-- Bounds 2.3025850922 ≤ log 10 ≤ 2.3025850938, via
`log 10 = 3 log 2 + log (5/4)`. -/
lemma log_ten_bounds :
    (2.3025850922 : ℝ) ≤ Real.log 10 ∧ Real.log 10 ≤ 2.3025850938 := by
  have h : Real.log 10 = 3 * Real.log 2 + Real.log (5 / 4) := by
    have h10 : (10 : ℝ) = 2 ^ (3 : ℕ) * (5 / 4) := by norm_num
    rw [h10, Real.log_mul (by norm_num) (by norm_num), Real.log_pow]
    push_cast
    ring
  have h2l := Real.log_two_gt_d9
  have h2u := Real.log_two_lt_d9
  have h54 := log_five_fourths_bounds
  rw [h]
  constructor <;> linarith [h54.1, h54.2]

/-- Bounds 0.5547775112 ≤ log (5000/2871) ≤ 0.5547775114, from the Taylor
series of `log (1-x)` at `x = 2129/5000` with 28 terms. -/
lemma log_ratio_bounds :
    (0.5547775112 : ℝ) ≤ Real.log (5000 / 2871) ∧
      Real.log (5000 / 2871) ≤ 0.5547775114 := by
  have hx : |(2129 / 5000 : ℝ)| = 2129 / 5000 := by
    rw [abs_of_pos (by norm_num : (0 : ℝ) < 2129 / 5000)]
  have h : |(2129 / 5000 : ℝ)| < 1 := by rw [hx]; norm_num
  have z := Real.abs_log_sub_add_sum_range_le h 28
  rw [hx] at z
  have e1 : (1 : ℝ) - 2129 / 5000 = 2871 / 5000 := by norm_num
  rw [e1] at z
  have e2 : Real.log (2871 / 5000 : ℝ) = -Real.log (5000 / 2871) := by
    rw [← Real.log_inv]
    norm_num
  rw [e2, abs_le] at z
  obtain ⟨z1, z2⟩ := z
  norm_num [Finset.sum_range_succ] at z1 z2
  constructor <;> linarith

/-- Bounds on `exp 21` from the ten-digit decimal bounds on `exp 1`. -/
lemma exp_21_bounds :
    (2.7182818283 : ℝ) ^ (21 : ℕ) ≤ Real.exp 21 ∧
      Real.exp 21 ≤ (2.7182818286 : ℝ) ^ (21 : ℕ) := by
  have h : Real.exp 21 = Real.exp 1 ^ (21 : ℕ) := by
    rw [← Real.exp_nat_mul]
    norm_num
  rw [h]
  constructor
  · exact pow_le_pow_left (by norm_num) Real.exp_one_gt_d9.le 21
  · exact pow_le_pow_left (Real.exp_pos 1).le Real.exp_one_lt_d9.le 21

/-- Lower bound on `exp 0.8255251561` from 13 Taylor terms. -/
lemma exp_c1_lower : (2.283079423 : ℝ) ≤ Real.exp 0.8255251561 := by
  have h := @Real.sum_le_exp_of_nonneg (0.8255251561 : ℝ) (by norm_num) 13
  refine le_trans ?_ h
  norm_num [Finset.sum_range_succ, Nat.factorial]

/-- Upper bound on `exp 0.8255251713` from 13 Taylor terms plus the
remainder bound. -/
lemma exp_c2_upper : Real.exp 0.8255251713 ≤ (2.283079459 : ℝ) := by
  have h := @Real.exp_bound' (0.8255251713 : ℝ) (by norm_num) (by norm_num) 13 (by norm_num)
  refine le_trans h ?_
  norm_num [Finset.sum_range_succ, Nat.factorial]

/-- Expression of the reference CO(1-0) luminosity of cell 3 as a single
exponential: `lco_diff_units ((30/4.5e-44)) lsun = exp ((log (5000/2871) + 10.47 log 10)/1.13)`. -/
lemma lco_ref_eq_exp :
    lco_diff_units (lfir 30 4.5e-44) lsun =
      Real.exp ((Real.log (5000 / 2871) + 10.47 * Real.log 10) / 1.13) := by
  have hu : lfir 30 4.5e-44 / lsun = (5000 / 2871 : ℝ) * 10 ^ (11 : ℕ) := by
    unfold lfir lsun
    norm_num
  unfold lco_diff_units logco
  rw [hu, Real.rpow_def_of_pos (by norm_num)]
  congr 1
  have hsplit : Real.log ((5000 / 2871 : ℝ) * 10 ^ (11 : ℕ))
      = Real.log (5000 / 2871) + 11 * Real.log 10 := by
    rw [Real.log_mul (by norm_num) (by norm_num), Real.log_pow]
    norm_num
  rw [← Real.log_div_log, hsplit]
  have hl10 : Real.log 10 ≠ 0 := ne_of_gt (Real.log_pos (by norm_num))
  field_simp
  ring

/-- Certified rational enclosure of the reference CO(1-0) luminosity. -/
lemma lco_ref_bounds :
    (3010961060 : ℝ) ≤ lco_diff_units (lfir 30 4.5e-44) lsun ∧
      lco_diff_units (lfir 30 4.5e-44) lsun ≤ 3010961120 := by
  rw [lco_ref_eq_exp]
  have hT := log_ten_bounds
  have hL := log_ratio_bounds
  have hw_lo : (21 + 0.8255251561 : ℝ)
      ≤ (Real.log (5000 / 2871) + 10.47 * Real.log 10) / 1.13 := by
    rw [le_div_iff (by norm_num : (0:ℝ) < 1.13)]
    linarith [hL.1, hT.1]
  have hw_hi : (Real.log (5000 / 2871) + 10.47 * Real.log 10) / 1.13
      ≤ (21 + 0.8255251713 : ℝ) := by
    rw [div_le_iff (by norm_num : (0:ℝ) < 1.13)]
    linarith [hL.2, hT.2]
  constructor
  · have h1 : (3010961060 : ℝ) ≤ (2.7182818283 : ℝ) ^ (21 : ℕ) * 2.283079423 := by
      norm_num
    have h2 : (2.7182818283 : ℝ) ^ (21 : ℕ) * 2.283079423
        ≤ Real.exp 21 * Real.exp 0.8255251561 :=
      mul_le_mul exp_21_bounds.1 exp_c1_lower (by norm_num) (Real.exp_pos 21).le
    have h3 : Real.exp 21 * Real.exp 0.8255251561 = Real.exp (21 + 0.8255251561) :=
      (Real.exp_add 21 0.8255251561).symm
    have h4 : Real.exp (21 + 0.8255251561 : ℝ)
        ≤ Real.exp ((Real.log (5000 / 2871) + 10.47 * Real.log 10) / 1.13) :=
      Real.exp_le_exp.mpr hw_lo
    linarith
  · have h4 : Real.exp ((Real.log (5000 / 2871) + 10.47 * Real.log 10) / 1.13)
        ≤ Real.exp (21 + 0.8255251713 : ℝ) :=
      Real.exp_le_exp.mpr hw_hi
    have h3 : Real.exp (21 + 0.8255251713 : ℝ) = Real.exp 21 * Real.exp 0.8255251713 :=
      Real.exp_add 21 0.8255251713
    have h2 : Real.exp 21 * Real.exp 0.8255251713
        ≤ (2.7182818286 : ℝ) ^ (21 : ℕ) * 2.283079459 :=
      mul_le_mul exp_21_bounds.2 exp_c2_upper (Real.exp_pos _).le (by positivity)
    have h1 : (2.7182818286 : ℝ) ^ (21 : ℕ) * 2.283079459 ≤ (3010961120 : ℝ) := by
      norm_num
    linarith

/-- Claim C9: in the reference scenario (`sfr = 30`, `kappa = 4.5e-44`,
`redshift = 1.036`, line ratio 0.6, magnification 4.3, velocity dispersion
200), with the cosmology's luminosity distance at z = 1.036 taken in
[7093, 7096] Mpc (the external astropy collaborator; the Planck 2018
value is about 7093.8 Mpc, matching the notebook's stored outputs):
the infrared luminosity is 6.67e44 erg/s, the observed CO(3-2) frequency
is 169.84 GHz, the integrated flux density is 1.16 Jy km/s and the flux
density is 5.78e-3 Jy, each to the printed precision. -/
theorem C9_reference_scenario (dl : ℝ) (hdl1 : (7093 : ℝ) ≤ dl) (hdl2 : dl ≤ 7096) :
    |lfir 30 4.5e-44 - 6.67e44| ≤ 0.005e44 ∧
    |(obs_freq 1.036).getD 2 0 - 169.84| ≤ 0.005 ∧
    |flux_s (lco_32_lens 4.3 (lco_32 (lco_diff_units (lfir 30 4.5e-44) lsun) 0.6))
        ((obs_freq 1.036).getD 2 0) 1.036 dl - 1.16| ≤ 0.005 ∧
    |flux_density
        (flux_s (lco_32_lens 4.3 (lco_32 (lco_diff_units (lfir 30 4.5e-44) lsun) 0.6))
          ((obs_freq 1.036).getD 2 0) 1.036 dl) 200 - 5.78e-3| ≤ 0.005e-3 := by
  have hfq : (obs_freq (1.036 : ℝ)).getD 2 0 = 345795989 / 2036000 := by
    show (345.795989 : ℝ) / (1 + 1.036) = 345795989 / 2036000
    norm_num
  have hlco := lco_ref_bounds
  set L := lco_diff_units (lfir 30 4.5e-44) lsun with hLdef
  have hden_pos : (0 : ℝ) < dl * dl * 3.25e7 := by nlinarith
  have hdlsq_hi : dl * dl ≤ 7096 * 7096 :=
    mul_le_mul hdl2 hdl2 (by linarith) (by norm_num)
  have hdlsq_lo : (7093 : ℝ) * 7093 ≤ dl * dl :=
    mul_le_mul hdl1 hdl1 (by norm_num) (by linarith)
  have hfs_lo : (1.15566 : ℝ)
      ≤ flux_s (lco_32_lens 4.3 (lco_32 L 0.6)) (345795989 / 2036000) 1.036 dl := by
    unfold flux_s lco_32_lens lco_32
    rw [le_div_iff hden_pos]
    nlinarith [hlco.1, hdlsq_hi]
  have hfs_hi : flux_s (lco_32_lens 4.3 (lco_32 L 0.6)) (345795989 / 2036000) 1.036 dl
      ≤ (1.15665 : ℝ) := by
    unfold flux_s lco_32_lens lco_32
    rw [div_le_iff hden_pos]
    nlinarith [hlco.2, hdlsq_lo]
  refine ⟨?_, ?_, ?_, ?_⟩
  · rw [abs_le]
    unfold lfir
    constructor <;> norm_num
  · rw [hfq, abs_le]
    constructor <;> norm_num
  · rw [hfq, abs_le]
    constructor <;> linarith
  · rw [hfq, abs_le]
    unfold flux_density
    constructor <;> linarith

/-- Witness for C9 at the concrete distance 7094 Mpc. -/
theorem C9_reference_scenario_witness :
    (7093 : ℝ) ≤ 7094 ∧ (7094 : ℝ) ≤ 7096 ∧
      (|lfir 30 4.5e-44 - 6.67e44| ≤ 0.005e44 ∧
        |(obs_freq 1.036).getD 2 0 - 169.84| ≤ 0.005 ∧
        |flux_s (lco_32_lens 4.3 (lco_32 (lco_diff_units (lfir 30 4.5e-44) lsun) 0.6))
            ((obs_freq 1.036).getD 2 0) 1.036 7094 - 1.16| ≤ 0.005 ∧
        |flux_density
            (flux_s (lco_32_lens 4.3 (lco_32 (lco_diff_units (lfir 30 4.5e-44) lsun) 0.6))
              ((obs_freq 1.036).getD 2 0) 1.036 7094) 200 - 5.78e-3| ≤ 0.005e-3) :=
  ⟨by norm_num, by norm_num, C9_reference_scenario 7094 (by norm_num) (by norm_num)⟩

end P1
